import Mathlib

/-!
Verification of the Chat_db analytics dashboard.

Shallow embedding of the Python source:
  - src/utils/auth.py        (credential check)
  - src/utils/database.py    (database access layer, caching, execute_query,
                              get_table_stats)
  - src/pages/Custom_Analysis.py      (custom-query handler, CSV export)
  - src/pages/3_Advanced_Analytics.py (IQR outlier detection)

The external database and the psycopg2 driver are modelled as explicit state:
a database value plus an abstract execution engine; errors are Except values.
Strings of cell data are Lean Strings; numeric columns are rationals.
-/

namespace ChatDb

/-! ## Environment model (os.getenv with a default) -/

/-- An OS environment: an association list from variable names to values. -/
def Env : Type := List (String × String)

/-- Python os.getenv(key, default): the value bound to the key, or the
default when the key is absent. -/
def getenv (env : Env) (key dflt : String) : String :=
  (env.lookup key).getD dflt

/-! ## Credential check — src/utils/auth.py, check_authentication -/

/-- check_authentication from src/utils/auth.py: reads APP_USERNAME
(default miva_admin) and APP_PASSWORD (default password) from the
environment and compares both for string equality. -/
def check_authentication (env : Env) (username password : String) : Bool :=
  let correct_username := getenv env "APP_USERNAME" "miva_admin"
  let correct_password := getenv env "APP_PASSWORD" "password"
  username == correct_username && password == correct_password

/-! ## Database model — the external PostgreSQL database as a value -/

/-- A table of the external database: its name, column names, and rows
(each row a list of cell strings, one per column). -/
structure Table where
  name : String
  cols : List String
  rows : List (List String)
deriving Repr, DecidableEq

/-- The external database: the configured schema name, its tables, and the
pg_size_pretty rendering of its size. -/
structure Db where
  schemaName : String
  tables : List Table
  dbSize : String
deriving Repr, DecidableEq

/-- The result of psycopg2.connect: a database handle, or a connection
error message. -/
def Conn : Type := Except String Db

/-- Catalog lookup used by the per-table SQL: the table of that name in the
given schema, if any. -/
def findTable (db : Db) (schema table : String) : Option Table :=
  if schema == db.schemaName then db.tables.find? (fun t => t.name == table) else none

/-! ## Database access layer — src/utils/database.py -/

/-- list_tables from src/utils/database.py: queries
information_schema.tables for the schema, ordered by table_name; on a
connection error reports the error (second component) and returns the
empty list. -/
def list_tables (conn : Conn) (schema : String) : List String × Option String :=
  match conn with
  | .error e => ([], some ("Error listing tables: " ++ e))
  | .ok db =>
    (if schema == db.schemaName
      then (db.tables.map (fun t => t.name)).mergeSort (fun a b => a ≤ b)
      else [],
     none)

/-- get_table_count from src/utils/database.py: SELECT COUNT(*) on the
quoted schema-qualified table; returns 0 on any error (connection failure
or missing table). -/
def get_table_count (conn : Conn) (table : String) (schema : String) : Nat :=
  match conn with
  | .error _ => 0
  | .ok db =>
    match findTable db schema table with
    | none => 0
    | some t => t.rows.length

/-- get_table_data from src/utils/database.py: SELECT * FROM the quoted
schema-qualified table LIMIT the given bound; returns the empty result on
any error. -/
def get_table_data (conn : Conn) (table : String) (limit : Nat) (schema : String) :
    List (List String) :=
  match conn with
  | .error _ => []
  | .ok db =>
    match findTable db schema table with
    | none => []
    | some t => t.rows.take limit

/-! ## Fixed-TTL memoization — the st.cache_data(ttl=60) wrapper on
get_table_data. A cache maps the argument tuple to the stored time and
value; trips counts database round trips actually performed. -/

/-- Cache state for the memoized get_table_data: entries keyed by the
argument tuple (table, limit, schema), each holding the store time and the
cached result; trips counts the database round trips performed so far. -/
structure DataCache where
  entries : List ((String × Nat × String) × (Nat × List (List String)))
  trips : Nat
deriving Repr, DecidableEq

/-- The st.cache_data(ttl=60) wrapper around get_table_data: a fresh cache
entry (stored less than 60 time units ago) is returned as-is with no
database round trip; otherwise the query runs, the result is stored at the
current time, and the round-trip count increases. -/
def get_table_data_cached (conn : Conn) (st : DataCache) (now : Nat)
    (table : String) (limit : Nat) (schema : String) :
    List (List String) × DataCache :=
  match st.entries.lookup (table, limit, schema) with
  | some (t0, v) =>
    if now < t0 + 60 then (v, st)
    else
      let v2 := get_table_data conn table limit schema
      (v2, ⟨((table, limit, schema), (now, v2)) :: st.entries, st.trips + 1⟩)
  | none =>
    let v2 := get_table_data conn table limit schema
    (v2, ⟨((table, limit, schema), (now, v2)) :: st.entries, st.trips + 1⟩)

/-- A cache state is well formed for a connection when every entry holds
exactly the result get_table_data returns for its key. -/
def WfCache (conn : Conn) (st : DataCache) : Prop :=
  ∀ table limit schema t0 v,
    st.entries.lookup (table, limit, schema) = some (t0, v) →
    v = get_table_data conn table limit schema

/-! ## get_table_stats — src/utils/database.py -/

/-- The stats dictionary built by get_table_stats. -/
structure Stats where
  table_count : Nat
  total_columns : Nat
  db_size : String
  total_records : Nat
deriving Repr, DecidableEq

/-- The SQL text of the per-table count query issued by get_table_stats. -/
def countSql (schema table : String) : String :=
  "SELECT COUNT(*) FROM \"" ++ schema ++ "\".\"" ++ table ++ "\""

/-- get_table_stats from src/utils/database.py: on a live connection it
runs three catalog queries (table count, column count, database size) and
then one COUNT(*) query per table returned by list_tables, summing the
counts into total_records. The second component is the trace of SQL texts
executed on the cursor, in order. Returns none on connection error. -/
def get_table_stats (conn : Conn) (schema : String) : Option Stats × List String :=
  match conn with
  | .error _ => (none, [])
  | .ok db =>
    let tables := (list_tables conn schema).1
    let counts := tables.map (fun t => get_table_count conn t schema)
    (some
      { table_count := (if schema == db.schemaName then db.tables else []).length
        total_columns :=
          ((if schema == db.schemaName then db.tables else []).map
            (fun t => t.cols.length)).sum
        db_size := db.dbSize
        total_records := counts.sum },
     ["SELECT COUNT(*) FROM information_schema.tables WHERE table_schema = %s",
      "SELECT COUNT(*) FROM information_schema.columns WHERE table_schema = %s",
      "SELECT pg_size_pretty(pg_database_size(current_database()))"]
       ++ tables.map (fun t => countSql schema t))

/-! ## execute_query — src/utils/database.py -/

/-- The SQL execution engine behind psycopg2: running a SELECT text reads
rows without touching the database state; running any other statement
yields an updated database and an affected-row count; either can fail with
a driver error message. -/
structure Engine where
  runRead : String → Db → Except String (List (List String))
  runStmt : String → Db → Except String (Db × Nat)

/-- Python str.strip: drop whitespace from both ends. -/
def pyStrip (s : List Char) : List Char :=
  ((s.dropWhile Char.isWhitespace).reverse.dropWhile Char.isWhitespace).reverse

/-- Python str.upper, characterwise. -/
def pyUpper (s : List Char) : List Char := s.map Char.toUpper

/-- The SELECT test of execute_query: Python
query.strip().upper().startswith(SELECT), i.e. the first six characters of
the stripped, uppercased text spell SELECT. -/
def startsWithSelect (q : String) : Bool :=
  List.take 6 (pyUpper (pyStrip q.toList)) == "SELECT".toList

/-- The observable outcome of one execute_query call: the returned
DataFrame, the returned status string, and the database state after the
call (commit applied on success, rollback on failure). -/
structure QueryOutput where
  df : List (List String)
  status : String
  db : Db
deriving Repr, DecidableEq

/-- execute_query from src/utils/database.py: a query whose trimmed,
uppercased text starts with SELECT is run through pd.read_sql and its rows
returned with status success; any other text is executed and committed,
with the affected-row count reported in the status string and an empty
DataFrame returned. Any driver exception is caught and rendered as an
Error status with the empty DataFrame; a failed statement is rolled back. -/
def execute_query (e : Engine) (db : Db) (q : String) : QueryOutput :=
  if startsWithSelect q then
    match e.runRead q db with
    | .ok rows => ⟨rows, "success", db⟩
    | .error msg => ⟨[], "Error: " ++ msg, db⟩
  else
    match e.runStmt q db with
    | .ok (db2, n) => ⟨[], "Query executed successfully. Rows affected: " ++ toString n, db2⟩
    | .error msg => ⟨[], "Error: " ++ msg, db⟩

/-! ## Custom-query handler — src/pages/Custom_Analysis.py, execute branch -/

/-- One entry of st.session_state.query_history as appended by the execute
branch of Custom_Analysis.py: a success entry records the query and its
row count; a failure entry records the query and the error text. -/
inductive HistoryEntry where
  | success (query : String) (rows : Nat)
  | failure (query : String) (error : String)
deriving Repr, DecidableEq

/-- What the execute branch displays for the query outcome. -/
inductive Shown where
  | successBanner (rows : Nat)
  | warningEmpty
  | infoMessage (msg : String)
deriving Repr, DecidableEq

/-- The execute branch of src/pages/Custom_Analysis.py (lines 135-239):
calls execute_query; on status success with a non-empty result it shows a
success banner and appends a success history entry; on status success with
an empty result it shows a warning; otherwise it shows the status text as
an info message. The surrounding try/except would append a failure history
entry only if execute_query raised, which it never does (it catches all
driver exceptions internally and returns them as an Error status). -/
def run_query_handler (e : Engine) (db : Db) (hist : List HistoryEntry) (q : String) :
    QueryOutput × Shown × List HistoryEntry :=
  let out := execute_query e db q
  if out.status = "success" ∧ out.df ≠ [] then
    (out, .successBanner out.df.length, hist ++ [.success q out.df.length])
  else if out.status = "success" ∧ out.df = [] then
    (out, .warningEmpty, hist)
  else
    (out, .infoMessage out.status, hist)

/-! ## Concrete fixtures used by witnesses -/

/-- A small concrete database. -/
def toyDb : Db :=
  ⟨"public",
   [⟨"msgs", ["id", "body"], [["1", "hi"], ["2", "yo"], ["3", "ok"]]⟩],
   "8 MB"⟩

/-- A concrete engine: reading SELECT 1/0 fails with the PostgreSQL
division-by-zero error text, any other read returns one row; any statement
affects one row and leaves the database unchanged. -/
def toyEngine : Engine :=
  ⟨fun q _ =>
     if q = "SELECT 1/0" then .error "division by zero" else .ok [["1"]],
   fun _ db => .ok (db, 1)⟩

/-! ## IQR outlier detection — src/pages/3_Advanced_Analytics.py,
lines 377-391. Column values are rationals; quantile is the pandas default
linear interpolation on the sorted values. -/

/-- pandas Series.quantile with the default linear interpolation: on the
sorted values x0..x(n-1), position h = q*(n-1), result
x(floor h) + frac(h) * (x(floor h + 1) - x(floor h)). -/
def quantile (xs : List ℚ) (q : ℚ) : ℚ :=
  let s := xs.mergeSort (fun a b => a ≤ b)
  let pos : ℚ := q * ((s.length : ℚ) - 1)
  let i : Nat := pos.floor.toNat
  let g : ℚ := pos - (pos.floor : ℚ)
  let xi := s.getD i 0
  let xi1 := s.getD (i + 1) xi
  xi + g * (xi1 - xi)

/-- The outlier bounds of the Outlier Detection tab: Q1 = quantile 0.25,
Q3 = quantile 0.75, IQR = Q3 - Q1, bounds Q1 - 1.5*IQR and Q3 + 1.5*IQR. -/
def outlier_bounds (xs : List ℚ) : ℚ × ℚ :=
  let q1 := quantile xs (1/4)
  let q3 := quantile xs (3/4)
  let iqr := q3 - q1
  (q1 - 3/2 * iqr, q3 + 3/2 * iqr)

/-- The outlier rows: the column values kept by the mask
value < lower_bound or value > upper_bound. -/
def outliers (xs : List ℚ) : List ℚ :=
  xs.filter (fun v => v < (outlier_bounds xs).1 ∨ (outlier_bounds xs).2 < v)

/-! ## CSV export — src/pages/Custom_Analysis.py, result_df.to_csv(index=False).
The serializer follows the csv module with QUOTE_MINIMAL: a field is quoted
when it contains the delimiter, the quote character, or a line break, with
inner quotes doubled; records are comma-separated fields terminated by a
newline, the header record first. The parser is the standard CSV reader,
written as a character scanner. -/

/-- QUOTE_MINIMAL: a field needs quoting when it contains a comma, a
double quote, a newline, or a carriage return. -/
def needsQuote (f : List Char) : Bool :=
  f.any (fun c => c = ',' ∨ c = '"' ∨ c = '\n' ∨ c = '\r')

/-- Double every double-quote character of a field body. -/
def dupQuotes : List Char → List Char
  | [] => []
  | c :: cs => if c = '"' then '"' :: '"' :: dupQuotes cs else c :: dupQuotes cs

/-- Serialize one field: quoted with doubled inner quotes when needed,
verbatim otherwise. -/
def escapeField (f : List Char) : List Char :=
  if needsQuote f then '"' :: (dupQuotes f ++ ['"']) else f

/-- Serialize one record: its fields, comma-separated. -/
def writeRecord : List (List Char) → List Char
  | [] => []
  | [f] => escapeField f
  | f :: fs => escapeField f ++ ',' :: writeRecord fs

/-- Serialize a list of records, each terminated by a newline. -/
def toCsvChars : List (List (List Char)) → List Char
  | [] => []
  | r :: rs => writeRecord r ++ '\n' :: toCsvChars rs

/-- The CSV reader as a character scanner. State: whether the scan is
inside a quoted field, the remaining input, the current field, the fields
of the current record, and the completed records. -/
def csvAux : Bool → List Char → List Char → List (List Char) →
    List (List (List Char)) → List (List (List Char))
  | _, [], f, r, out =>
      if f = [] ∧ r = [] then out else out ++ [r ++ [f]]
  | true, c :: cs, f, r, out =>
      if c = '"' then
        match cs with
        | c2 :: cs2 =>
          if c2 = '"' then csvAux true cs2 (f ++ ['"']) r out
          else csvAux false (c2 :: cs2) f r out
        | [] => csvAux false [] f r out
      else csvAux true cs (f ++ [c]) r out
  | false, c :: cs, f, r, out =>
      if c = ',' then csvAux false cs [] (r ++ [f]) out
      else if c = '\n' then csvAux false cs [] [] (out ++ [r ++ [f]])
      else if c = '"' then csvAux true cs f r out
      else csvAux false cs (f ++ [c]) r out

/-- Parse a CSV character stream into records of fields. -/
def parseCsvChars (cs : List Char) : List (List (List Char)) :=
  csvAux false cs [] [] []

/-- result_df.to_csv(index=False): the header record followed by the data
records, serialized as CSV text. -/
def df_to_csv (header : List String) (rows : List (List String)) : String :=
  ⟨toCsvChars ((header :: rows).map (fun r => r.map String.data))⟩

/-- Re-parse CSV text into a table of string cells. -/
def parse_csv (s : String) : List (List String) :=
  (parseCsvChars s.data).map (fun r => r.map String.mk)

end ChatDb

/-! ## Theorems -/

namespace ChatDb

/-- C2 (counterexample): with an empty environment (credential configuration
absent), the pair (miva_admin, password) is accepted, refuting the claim that
a missing configuration makes the credential check return false for every
pair. -/
theorem c2_missing_config_accepts_default_pair :
    check_authentication [] "miva_admin" "password" = true := by
  decide

/-- C2 (amended): the credential check returns true exactly when the pair
matches the effective configured credentials, where a missing APP_USERNAME
or APP_PASSWORD falls back to the defaults miva_admin and password; being a
total function it never raises. -/
theorem c2_check_authentication_iff (env : Env) (u p : String) :
    check_authentication env u p = true ↔
      u = getenv env "APP_USERNAME" "miva_admin" ∧
      p = getenv env "APP_PASSWORD" "password" := by
  simp [check_authentication, Bool.and_eq_true, beq_iff_eq]

/-- C7: on a database connection error, list_tables returns the empty
sequence and reports the error to the caller, and get_table_count returns
0; both are total functions of the connection outcome, so neither
propagates an exception past the call boundary. -/
theorem c7_connection_error_soft_failure (e : String) (table schema : String) :
    (list_tables (.error e) schema).1 = [] ∧
    (list_tables (.error e) schema).2 = some ("Error listing tables: " ++ e) ∧
    get_table_count (.error e) table schema = 0 := by
  refine ⟨rfl, rfl, rfl⟩

/-- C6: on a live connection, get_table_stats issues one COUNT(*) SQL text
per table known to the database (after a fixed three-query preamble) and
computes total_records as the sum of the per-table counts. -/
theorem c6_total_records_per_table_counts (db : Db) (schema : String) :
    ∃ s pre,
      get_table_stats (.ok db) schema
        = (some s,
           pre ++ ((list_tables (.ok db) schema).1.map (fun t => countSql schema t))) ∧
      pre.length = 3 ∧
      s.total_records
        = (((list_tables (.ok db) schema).1.map
            (fun t => get_table_count (.ok db) t schema)).sum) := by
  refine ⟨_, _, rfl, rfl, rfl⟩

/-- C5: for every numeric column, the outlier bounds are Q1 - 1.5*IQR and
Q3 + 1.5*IQR with IQR = Q3 - Q1 for the quartiles of that column, and a
value is flagged as an outlier exactly when it occurs in the column and
lies strictly outside the bounds. -/
theorem c5_iqr_outlier_flagging (xs : List ℚ) (v : ℚ) :
    (outlier_bounds xs).1
      = quantile xs (1/4) - 3/2 * (quantile xs (3/4) - quantile xs (1/4)) ∧
    (outlier_bounds xs).2
      = quantile xs (3/4) + 3/2 * (quantile xs (3/4) - quantile xs (1/4)) ∧
    (v ∈ outliers xs ↔
      v ∈ xs ∧ (v < (outlier_bounds xs).1 ∨ v > (outlier_bounds xs).2)) := by
  refine ⟨rfl, rfl, ?_⟩
  simp [outliers, List.mem_filter]

/-- The raw get_table_data never returns more rows than its limit. -/
theorem get_table_data_length_le (conn : Conn) (table : String) (limit : Nat)
    (schema : String) :
    (get_table_data conn table limit schema).length ≤ limit := by
  unfold get_table_data
  cases conn with
  | error e => simp
  | ok db =>
    cases hf : findTable db schema table with
    | none => simp [hf]
    | some t => simp [hf]

/-- C4: on a well-formed cache, get_table_data with a limit returns at most
that many rows, and a second call with the same arguments while the stored
entry is still inside the 60-unit window returns the identical result and
the identical cache state, so no new database round trip is performed. -/
theorem c4_get_table_data_cached_bound_and_hit (conn : Conn) (st : DataCache)
    (now : Nat) (table : String) (limit : Nat) (schema : String)
    (hwf : WfCache conn st) :
    ((get_table_data_cached conn st now table limit schema).1.length ≤ limit) ∧
    (∀ now2 t0 v,
      (get_table_data_cached conn st now table limit schema).2.entries.lookup
          (table, limit, schema) = some (t0, v) →
      now2 < t0 + 60 →
      get_table_data_cached conn
          (get_table_data_cached conn st now table limit schema).2
          now2 table limit schema
        = get_table_data_cached conn st now table limit schema) := by
  cases h : st.entries.lookup (table, limit, schema) with
  | none =>
    constructor
    · simp only [get_table_data_cached, h]
      exact get_table_data_length_le conn table limit schema
    · intro now2 t0 v hlook hfresh
      simp only [get_table_data_cached, h] at hlook ⊢
      simp only [List.lookup_cons_self] at hlook
      obtain ⟨ht0, hv⟩ := Prod.mk.injEq .. ▸ Option.some.injEq .. ▸ hlook
      subst ht0
      simp [List.lookup_cons_self, hfresh, hv]
  | some p =>
    obtain ⟨t0a, va⟩ := p
    by_cases hfresh1 : now < t0a + 60
    · constructor
      · simp only [get_table_data_cached, h, if_pos hfresh1]
        exact (hwf table limit schema t0a va h).symm ▸
          get_table_data_length_le conn table limit schema
      · intro now2 t0 v hlook hfresh
        simp only [get_table_data_cached, h, if_pos hfresh1] at hlook ⊢
        simp only [Option.some.injEq, Prod.mk.injEq] at hlook
        obtain ⟨ht0, hv⟩ := hlook
        rw [ht0, if_pos hfresh]
    · constructor
      · simp only [get_table_data_cached, h, if_neg hfresh1]
        exact get_table_data_length_le conn table limit schema
      · intro now2 t0 v hlook hfresh
        simp only [get_table_data_cached, h, if_neg hfresh1] at hlook ⊢
        simp only [List.lookup_cons_self] at hlook
        obtain ⟨ht0, hv⟩ := Prod.mk.injEq .. ▸ Option.some.injEq .. ▸ hlook
        subst ht0
        simp [List.lookup_cons_self, hfresh, hv]

/-- C4 (witness): the theorem instantiated at the concrete database, an
empty cache, limit 2, a first call at time 0 and a second at time 30. -/
theorem c4_get_table_data_cached_witness :
    ((get_table_data_cached (.ok toyDb) ⟨[], 0⟩ 0 "msgs" 2 "public").1.length ≤ 2) ∧
    get_table_data_cached (.ok toyDb)
        (get_table_data_cached (.ok toyDb) ⟨[], 0⟩ 0 "msgs" 2 "public").2
        30 "msgs" 2 "public"
      = get_table_data_cached (.ok toyDb) ⟨[], 0⟩ 0 "msgs" 2 "public" := by
  have h := c4_get_table_data_cached_bound_and_hit (.ok toyDb) ⟨[], 0⟩ 0 "msgs" 2 "public"
    (by intro t l s t0 v hv; simp [List.lookup] at hv)
  exact ⟨h.1, h.2 30 0 [["1", "hi"], ["2", "yo"]] (by decide) (by decide)⟩

/-- C1: execute_query on text whose trimmed form starts case-insensitively
with SELECT runs it as a read query, leaves the database unchanged, and on
success returns the rows with status success; on any other text it returns
an empty DataFrame and, on success, commits the statement and reports the
affected-row count in the status string. -/
theorem c1_execute_query_branches (e : Engine) (db : Db) (q : String) :
    (startsWithSelect q = true →
      (execute_query e db q).db = db ∧
      ((∃ rows, e.runRead q db = .ok rows ∧
          execute_query e db q = ⟨rows, "success", db⟩) ∨
       (∃ msg, e.runRead q db = .error msg ∧
          execute_query e db q = ⟨[], "Error: " ++ msg, db⟩))) ∧
    (startsWithSelect q = false →
      (execute_query e db q).df = [] ∧
      ((∃ db2 n, e.runStmt q db = .ok (db2, n) ∧
          execute_query e db q
            = ⟨[], "Query executed successfully. Rows affected: " ++ toString n, db2⟩) ∨
       (∃ msg, e.runStmt q db = .error msg ∧
          execute_query e db q = ⟨[], "Error: " ++ msg, db⟩))) := by
  constructor
  · intro hsel
    unfold execute_query
    rw [hsel]
    simp only [if_true]
    cases hr : e.runRead q db with
    | ok rows => exact ⟨rfl, Or.inl ⟨rows, rfl, rfl⟩⟩
    | error msg => exact ⟨rfl, Or.inr ⟨msg, rfl, rfl⟩⟩
  · intro hsel
    unfold execute_query
    rw [hsel]
    simp only [Bool.false_eq_true, if_false]
    cases hr : e.runStmt q db with
    | ok p => exact ⟨rfl, Or.inl ⟨p.1, p.2, rfl, rfl⟩⟩
    | error msg => exact ⟨rfl, Or.inr ⟨msg, rfl, rfl⟩⟩

/-- C1 (witness): the theorem instantiated at the concrete engine and
database, once on a SELECT text and once on a DELETE text. -/
theorem c1_execute_query_branches_witness :
    ((execute_query toyEngine toyDb " select id from msgs ").db = toyDb ∧
      ((∃ rows, toyEngine.runRead " select id from msgs " toyDb = .ok rows ∧
          execute_query toyEngine toyDb " select id from msgs "
            = ⟨rows, "success", toyDb⟩) ∨
       (∃ msg, toyEngine.runRead " select id from msgs " toyDb = .error msg ∧
          execute_query toyEngine toyDb " select id from msgs "
            = ⟨[], "Error: " ++ msg, toyDb⟩))) ∧
    ((execute_query toyEngine toyDb "DELETE FROM msgs").df = [] ∧
      ((∃ db2 n, toyEngine.runStmt "DELETE FROM msgs" toyDb = .ok (db2, n) ∧
          execute_query toyEngine toyDb "DELETE FROM msgs"
            = ⟨[], "Query executed successfully. Rows affected: " ++ toString n, db2⟩) ∨
       (∃ msg, toyEngine.runStmt "DELETE FROM msgs" toyDb = .error msg ∧
          execute_query toyEngine toyDb "DELETE FROM msgs"
            = ⟨[], "Error: " ++ msg, toyDb⟩))) := by
  refine ⟨(c1_execute_query_branches toyEngine toyDb " select id from msgs ").1 (by decide),
         (c1_execute_query_branches toyEngine toyDb "DELETE FROM msgs").2 (by decide)⟩

/-- C3: executing the custom query SELECT 1/0 returns the driver error as
the status and an empty result set, but the query history gains no entry
at all: execute_query swallows the exception and returns an Error status,
so the handler's info branch runs and the except branch that would record
a history entry with status error is unreachable. This contradicts the
claimed recording of an error entry in the query history. -/
theorem c3_divzero_no_history_entry :
    run_query_handler toyEngine toyDb [] "SELECT 1/0"
      = (⟨[], "Error: division by zero", toyDb⟩,
         .infoMessage "Error: division by zero", []) := by
  decide

/-! Step lemmas for the CSV scanner: one equation per transition. -/

/-- Scanner at end of input. -/
theorem csvAux_nil (b : Bool) (f : List Char) (r : List (List Char))
    (out : List (List (List Char))) :
    csvAux b [] f r out = if f = [] ∧ r = [] then out else out ++ [r ++ [f]] := by
  cases b <;> rfl

/-- Scanner outside quotes on a comma: close the field. -/
theorem csvAux_false_comma (cs : List Char) (f : List Char) (r : List (List Char))
    (out : List (List (List Char))) :
    csvAux false (',' :: cs) f r out = csvAux false cs [] (r ++ [f]) out := by
  simp [csvAux]

/-- Scanner outside quotes on a newline: close the record. -/
theorem csvAux_false_newline (cs : List Char) (f : List Char) (r : List (List Char))
    (out : List (List (List Char))) :
    csvAux false ('\n' :: cs) f r out = csvAux false cs [] [] (out ++ [r ++ [f]]) := by
  simp [csvAux]

/-- Scanner outside quotes on a quote: enter quote mode. -/
theorem csvAux_false_quote (cs : List Char) (f : List Char) (r : List (List Char))
    (out : List (List (List Char))) :
    csvAux false ('"' :: cs) f r out = csvAux true cs f r out := by
  simp [csvAux]

/-- Scanner outside quotes on an ordinary character: extend the field. -/
theorem csvAux_false_other (c : Char) (cs : List Char) (f : List Char)
    (r : List (List Char)) (out : List (List (List Char)))
    (h1 : c ≠ ',') (h2 : c ≠ '\n') (h3 : c ≠ '"') :
    csvAux false (c :: cs) f r out = csvAux false cs (f ++ [c]) r out := by
  simp [csvAux, h1, h2, h3]

/-- Scanner inside quotes on a doubled quote: emit one quote. -/
theorem csvAux_true_quote_quote (cs : List Char) (f : List Char) (r : List (List Char))
    (out : List (List (List Char))) :
    csvAux true ('"' :: '"' :: cs) f r out = csvAux true cs (f ++ ['"']) r out := by
  simp [csvAux]

/-- Scanner inside quotes on a closing quote (next character, if any, is
not a quote): leave quote mode. -/
theorem csvAux_true_quote_close (cs : List Char) (f : List Char) (r : List (List Char))
    (out : List (List (List Char))) (h : cs.head? ≠ some '"') :
    csvAux true ('"' :: cs) f r out = csvAux false cs f r out := by
  cases cs with
  | nil => simp [csvAux]
  | cons c2 cs2 =>
    have hc2 : c2 ≠ '"' := by
      intro he
      exact h (by simp [he])
    simp [csvAux, hc2]

/-- Scanner inside quotes on an ordinary character: extend the field. -/
theorem csvAux_true_other (c : Char) (cs : List Char) (f : List Char)
    (r : List (List Char)) (out : List (List (List Char))) (h : c ≠ '"') :
    csvAux true (c :: cs) f r out = csvAux true cs (f ++ [c]) r out := by
  rw [csvAux.eq_def]
  simp [h]

/-- Consuming an unquoted field body: characters free of comma, newline
and quote are accumulated verbatim. -/
theorem csvAux_plain_run (f0 : List Char)
    (h : ∀ c ∈ f0, ¬(c = ',' ∨ c = '\n' ∨ c = '"')) :
    ∀ (rest f : List Char) (r : List (List Char)) (out : List (List (List Char))),
      csvAux false (f0 ++ rest) f r out = csvAux false rest (f ++ f0) r out := by
  induction f0 with
  | nil => intro rest f r out; simp
  | cons c cs ih =>
    intro rest f r out
    have hc := h c (List.mem_cons_self ..)
    push_neg at hc
    obtain ⟨h1, h2, h3⟩ := hc
    rw [List.cons_append, csvAux_false_other c (cs ++ rest) f r out h1 h2 h3,
      ih (fun x hx => h x (List.mem_cons_of_mem _ hx)) rest (f ++ [c]) r out]
    simp

/-- Consuming a quoted field body: the doubled-quote encoding of the field
followed by the closing quote is accumulated verbatim, provided the text
after the closing quote does not begin with a quote. -/
theorem csvAux_quoted_run (f0 : List Char) :
    ∀ (rest f : List Char) (r : List (List Char)) (out : List (List (List Char))),
      rest.head? ≠ some '"' →
      csvAux true (dupQuotes f0 ++ '"' :: rest) f r out
        = csvAux false rest (f ++ f0) r out := by
  induction f0 with
  | nil =>
    intro rest f r out hrest
    rw [show dupQuotes [] ++ '"' :: rest = '"' :: rest from rfl,
      csvAux_true_quote_close rest f r out hrest]
    simp
  | cons c cs ih =>
    intro rest f r out hrest
    by_cases hc : c = '"'
    · subst hc
      rw [show dupQuotes ('"' :: cs) ++ '"' :: rest
            = '"' :: '"' :: (dupQuotes cs ++ '"' :: rest) from by simp [dupQuotes],
        csvAux_true_quote_quote, ih rest (f ++ ['"']) r out hrest]
      simp
    · rw [show dupQuotes (c :: cs) ++ '"' :: rest
            = c :: (dupQuotes cs ++ '"' :: rest) from by simp [dupQuotes, hc],
        csvAux_true_other c _ f r out hc, ih rest (f ++ [c]) r out hrest]
      simp

/-- Consuming one serialized field up to its separator: escapeField is
inverted by the scanner. -/
theorem csvAux_field_run (f0 : List Char) (d : Char) (hd : d = ',' ∨ d = '\n') :
    ∀ (rest f : List Char) (r : List (List Char)) (out : List (List (List Char))),
      csvAux false (escapeField f0 ++ d :: rest) f r out
        = csvAux false (d :: rest) (f ++ f0) r out := by
  intro rest f r out
  by_cases hq : needsQuote f0 = true
  · rw [show escapeField f0 ++ d :: rest
        = '"' :: (dupQuotes f0 ++ '"' :: (d :: rest)) from by
      simp [escapeField, hq],
      csvAux_false_quote]
    refine csvAux_quoted_run f0 (d :: rest) f r out ?_
    rcases hd with h | h <;> simp [h]
  · have hplain : ∀ c ∈ f0, ¬(c = ',' ∨ c = '\n' ∨ c = '"') := by
      intro c hcmem hor
      apply hq
      simp only [needsQuote, List.any_eq_true]
      refine ⟨c, hcmem, ?_⟩
      rcases hor with h | h | h <;> simp [h]
    rw [show escapeField f0 ++ d :: rest = f0 ++ d :: rest from by
      simp [escapeField, hq]]
    exact csvAux_plain_run f0 hplain (d :: rest) f r out

/-- Consuming one serialized record including its newline terminator. -/
theorem csvAux_record_run (fs : List (List Char)) (hfs : fs ≠ []) :
    ∀ (rest : List Char) (r : List (List Char)) (out : List (List (List Char))),
      csvAux false (writeRecord fs ++ '\n' :: rest) [] r out
        = csvAux false rest [] [] (out ++ [r ++ fs]) := by
  induction fs with
  | nil => exact absurd rfl hfs
  | cons f gs ih =>
    intro rest r out
    cases gs with
    | nil =>
      rw [show writeRecord [f] ++ '\n' :: rest = escapeField f ++ '\n' :: rest from rfl,
        csvAux_field_run f '\n' (Or.inr rfl) rest [] r out,
        csvAux_false_newline]
      simp
    | cons g gs2 =>
      rw [show writeRecord (f :: g :: gs2) ++ '\n' :: rest
            = escapeField f ++ ',' :: (writeRecord (g :: gs2) ++ '\n' :: rest) from by
        simp [writeRecord],
        csvAux_field_run f ',' (Or.inl rfl) _ [] r out,
        csvAux_false_comma,
        ih (by simp) rest (r ++ [[] ++ f]) out]
      simp

/-- Scanning the full serialization of a table appends exactly its records
to the output accumulator. -/
theorem csvAux_toCsv_run (recs : List (List (List Char))) (h : ∀ r ∈ recs, r ≠ []) :
    ∀ out, csvAux false (toCsvChars recs) [] [] out = out ++ recs := by
  induction recs with
  | nil => intro out; simp [toCsvChars, csvAux_nil]
  | cons r rs ih =>
    intro out
    rw [show toCsvChars (r :: rs) = writeRecord r ++ '\n' :: toCsvChars rs from rfl,
      csvAux_record_run r (h r (List.mem_cons_self ..)) (toCsvChars rs) [] out,
      ih (fun x hx => h x (List.mem_cons_of_mem _ hx)) (out ++ [[] ++ r])]
    simp

/-- C8: re-parsing the CSV serialization of a result set (header record
plus data records, every record non-empty as SQL results always have at
least one column) reproduces exactly the same table: the same records in
order, hence the same number of rows, the same number of columns per row,
and the same cell values. -/
theorem c8_csv_round_trip (header : List String) (rows : List (List String))
    (hh : header ≠ []) (hr : ∀ r ∈ rows, r ≠ []) :
    parse_csv (df_to_csv header rows) = header :: rows := by
  have hmap : ∀ r ∈ (header :: rows).map (fun r => r.map String.data), r ≠ [] := by
    intro r hrm
    simp only [List.mem_map] at hrm
    obtain ⟨r0, hr0, hr0eq⟩ := hrm
    subst hr0eq
    simp only [ne_eq, List.map_eq_nil_iff]
    rcases List.mem_cons.mp hr0 with h | h
    · subst h; exact hh
    · exact hr r0 h
  have hdata : (df_to_csv header rows).data
      = toCsvChars ((header :: rows).map (fun r => r.map String.data)) := rfl
  rw [parse_csv, hdata, parseCsvChars, csvAux_toCsv_run _ hmap []]
  have hid : (String.mk ∘ String.data) = id := funext fun s => rfl
  simp [List.map_map, hid]

/-- C8 (witness): the round trip at a concrete table containing commas,
quotes, newlines and non-ASCII text. -/
theorem c8_csv_round_trip_witness :
    parse_csv (df_to_csv ["name", "note"]
        [["x,y", "he said \"hi\"\nbye"], ["", "Über plain"]])
      = [["name", "note"], ["x,y", "he said \"hi\"\nbye"], ["", "Über plain"]] :=
  c8_csv_round_trip ["name", "note"]
    [["x,y", "he said \"hi\"\nbye"], ["", "Über plain"]]
    (by decide) (by decide)

/-- C9: when APP_USERNAME and APP_PASSWORD are absent from the environment,
the pair (miva_admin, password) is accepted: the check falls back to
hard-coded default credentials instead of rejecting every pair. -/
theorem c9_default_credentials_accepted :
    (([] : Env).lookup "APP_USERNAME" = none) ∧
    (([] : Env).lookup "APP_PASSWORD" = none) ∧
    check_authentication [] "miva_admin" "password" = true := by
  refine ⟨rfl, rfl, ?_⟩
  decide

end ChatDb
